import Mathlib

/-!
Shallow embedding of the hyperdht-doctor client (src/client/index.js).

Modelling conventions:
* A byte buffer (Node `Buffer`) is a `List Nat` of byte values.
* The SHA-256 digest comes from the external Node `crypto` module; it is
  an external collaborator of this repository, so the development is
  parameterised by an arbitrary digest function `H : Buf → Buf`.
* `Math.random`-driven fill bytes are an input `rand : Nat → Nat` giving
  the value `Math.round(Math.random() * 1000)` chosen for each chunk;
  `Buffer.fill` coerces it to a byte, i.e. takes it mod 256.
* The DHT transport is an external collaborator: each connection's
  behaviour (pre-open error, or the list of response buffers the peer
  sends back) is an explicit input.
* JS exceptions are `Except`; a JS `undefined`/absent property is
  `Option.none`.
* `Date.now()` differences are inputs: each `timeAndCatch` call receives
  its measured duration as a parameter.
-/

set_option autoImplicit false

namespace HyperdhtDoctor

/-- A Node byte buffer: a list of byte values. -/
abbrev Buf := List Nat

/-- ExchangeResult: the `info` object built by `_sendData` — the ordered
request buffers, the ordered response buffers, and the ordered digests of
the requests. -/
structure ExchangeResult where
  requests : List Buf
  responses : List Buf
  hashes : List Buf
  deriving Repr, DecidableEq

/-- A JS `Error` as thrown inside the client: its `message`, its
engine-generated `stack`, and the optional `info` property attached by
`_sendData` (absent on transport errors). -/
structure JsErr where
  message : String
  stack : String
  info : Option ExchangeResult
  deriving Repr, DecidableEq

/-- The stack line V8 generates for `new Error(msg)`; engine-generated
text, modelled as a function of the message. -/
def errStack (msg : String) : String := "Error: " ++ msg

/-- Chunk synthesis loop of `_sendData`: for each size in the chunk plan
(in order), `Buffer.allocUnsafe(size).fill(Math.round(Math.random()*1000))`
— a buffer of exactly that size filled with the single byte
`rand i % 256`, where `rand i` is the random value drawn for chunk `i`. -/
def mkRequests (cs : List Nat) (rand : Nat → Nat) : List Buf :=
  cs.enum.map fun p => List.replicate p.2 (rand p.1 % 256)

/-- The pairwise comparison loop of `_sendData` (run when the digest and
response counts agree): walk the two lists in step and stop at the first
position where `hashes[i].equals(responses[i])` fails. -/
def firstMismatch : List Buf → List Buf → Option String
  | h :: hs, r :: rs =>
      if h ≠ r then some "Server responded with invalid data"
      else firstMismatch hs rs
  | _, _ => none

/-- Classification logic of `_sendData` (lines 37-49): too few responses,
too many responses, else pairwise comparison. -/
def classify (hashes responses : List Buf) : Option String :=
  if responses.length < hashes.length then
    some "Server did not respond with enough data"
  else if hashes.length < responses.length then
    some "Server responded with too much data"
  else firstMismatch hashes responses

/-- `_sendData`: synthesize one request per chunk size and its digest up
front, write the requests, collect the peer's responses (an input,
`responses`), classify, and either return the `info` object or throw an
error carrying it as `err.info`. -/
def sendData (cs : List Nat) (rand : Nat → Nat) (H : Buf → Buf)
    (responses : List Buf) : Except JsErr ExchangeResult :=
  let requests := mkRequests cs rand
  let hashes := requests.map H
  let info : ExchangeResult :=
    { requests := requests, responses := responses, hashes := hashes }
  match classify hashes responses with
  | some msg => .error { message := msg, stack := errStack msg, info := some info }
  | none => .ok info

/-- The ExchangeResult visible to the caller of `_sendData`, regardless of
classification: the return value on success, `err.info` on failure. -/
def infoOf : Except JsErr ExchangeResult → Option ExchangeResult
  | .ok i => some i
  | .error e => e.info

/-- The default chunk plan: `[1,2,3,4,5].map(s => s * 1024 * 32)`. -/
def CHUNK_SIZES : List Nat := [1, 2, 3, 4, 5].map fun s => s * 1024 * 32

/-- Outcome of one plain `ping` connection attempt, as decided by the
transport collaborator: `some e` when the connection emits `error` before
`open` (the promise rejects with `e`), `none` when it opens (the promise
resolves with no value). -/
abbrev PingBeh := Option JsErr

/-- `ping(publicKey)`: connect; on `open`, end the connection and resolve
with no value (JS `undefined`, modelled `none`); on a pre-open `error`
event, reject with that error. -/
def ping (beh : PingBeh) : Except JsErr (Option ExchangeResult) :=
  match beh with
  | some e => .error e
  | none => .ok none

/-- Behaviour of the connection opened by one `pingWithData` call:
either a pre-open `error` event, or the connection opens and the peer
sends back this list of response buffers before ending its side. -/
abbrev DataBeh := Except JsErr (List Buf)

/-- `pingWithData(publicKey)`: connect; on `open`, run `_sendData` on the
connection and resolve/reject with its outcome; on a pre-open `error`
event, reject immediately. -/
def pingWithData (cs : List Nat) (rand : Nat → Nat) (H : Buf → Buf)
    (beh : DataBeh) : Except JsErr (Option ExchangeResult) :=
  match beh with
  | .error e => .error e
  | .ok responses =>
      match sendData cs rand H responses with
      | .ok info => .ok (some info)
      | .error e => .error e

/-- The error object built by `timeAndCatch` from a caught error:
`obj.err = { message: err.message, stack: err.stack }`. Note this object
literal has exactly the two properties `message` and `stack`. -/
structure CaughtErr where
  message : String
  stack : String
  deriving Repr, DecidableEq

/-- Reading the `info` property of the `{message, stack}` object stored by
`timeAndCatch` yields JS `undefined` (modelled `none`): that object was
built without an `info` property. -/
def CaughtErr.infoProp (_ : CaughtErr) : Option ExchangeResult := none

/-- TimedOutcome: the object `timeAndCatch` returns. `result` holds the
resolved value (absent when the call threw, and indistinguishable from
absent when the call resolved `undefined`); `err` holds the caught
error's message and stack; `info` holds `err.info` when the caught error
carried one; `duration` is always set. -/
structure TimedOutcome where
  result : Option ExchangeResult
  err : Option CaughtErr
  info : Option ExchangeResult
  duration : Nat
  deriving Repr, DecidableEq

/-- `timeAndCatch(f)`: run `f`, recording the elapsed duration (an input
of the model); on success store the resolved value in `result`; on a
throw store `{message, stack}` in `err` and, when the thrown error has an
`info` property, copy it to `obj.info`. -/
def timeAndCatch (duration : Nat) (f : Except JsErr (Option ExchangeResult)) :
    TimedOutcome :=
  match f with
  | .ok v => { result := v, err := none, info := none, duration := duration }
  | .error e =>
      { result := none
        err := some { message := e.message, stack := e.stack }
        info := e.info
        duration := duration }

/-- A manifest `publicKey` entry: either a Buffer or a (hex) string
(both shapes are accepted by `generateServerReport` line 82 and
`generateFullReport` line 140). -/
inductive PubKey where
  | buf (b : Buf)
  | str (s : String)
  deriving Repr, DecidableEq

/-- Lower-case hex digit for a value below 16. -/
def hexChar (n : Nat) : Char :=
  if n < 10 then Char.ofNat (48 + n) else Char.ofNat (87 + n % 16)

/-- Two-digit lower-case hex rendering of one byte. -/
def byteHex (b : Nat) : String :=
  String.mk [hexChar (b / 16 % 16), hexChar (b % 16)]

/-- `buffer.toString(hex)`: lower-case hex rendering of a byte buffer. -/
def bufToHex (buf : Buf) : String := String.join (buf.map byteHex)

/-- The mapping key used by `generateFullReport` (line 140):
`Buffer.isBuffer(publicKey) ? publicKey.toString(hex) : publicKey`. -/
def keyStr : PubKey → String
  | .buf b => bufToHex b
  | .str s => s

/-- The reduced error context stored in a ServerReport's `pingWithData`
entry: hex-encoded digest and response lists (requests dropped). -/
structure ReducedInfo where
  hashes : List String
  responses : List String
  deriving Repr, DecidableEq

/-- The reduced `pingWithData` entry of a ServerReport (lines 103-110):
the caught error, the reduced info, and the duration. -/
structure PingWithDataEntry where
  err : Option CaughtErr
  info : Option ReducedInfo
  duration : Nat
  deriving Repr, DecidableEq

/-- The construction of the `pingWithData` entry (lines 103-110): the
ternary condition is `dataResult.err and dataResult.err.info`; `dataResult.err`
is the `{message, stack}` object stored by `timeAndCatch`, so its `info`
property read (`CaughtErr.infoProp`) yields `undefined`. -/
def pingWithDataEntryOf (dataResult : TimedOutcome) : PingWithDataEntry :=
  { err := dataResult.err
    info :=
      match dataResult.err with
      | some e =>
          match e.infoProp with
          | some i =>
              some { hashes := i.hashes.map bufToHex
                     responses := i.responses.map bufToHex }
          | none => none
      | none => none
    duration := dataResult.duration }

/-- One positional argument of an `onprogress` call. -/
inductive EvArg where
  | str (s : String)
  | key (k : PubKey)
  | pingOutcome (o : TimedOutcome)
  | entryOutcome (e : PingWithDataEntry)
  deriving Repr, DecidableEq

/-- Whether an event argument is an outcome payload. -/
def EvArg.isOutcome : EvArg → Bool
  | .pingOutcome _ => true
  | .entryOutcome _ => true
  | _ => false

/-- One `onprogress` call: its positional argument list. -/
abbrev Event := List EvArg

/-- The call `onprogress(test, start, name, publicKey)`. -/
def evStart (n : String) (pk : PubKey) : Event :=
  [.str "test", .str "start", .str n, .key pk]

/-- The call `onprogress(test, end, name, publicKey)` with no outcome. -/
def evEnd (n : String) (pk : PubKey) : Event :=
  [.str "test", .str "end", .str n, .key pk]

/-- The call `onprogress(test, end, name, publicKey, outcome)`. -/
def evEndO (n : String) (pk : PubKey) (o : EvArg) : Event :=
  [.str "test", .str "end", .str n, .key pk, o]

/-- The call `onprogress(test, terminating, publicKey)` (line 96): three
arguments, the identity in the third position, no test name. -/
def evTerminating (pk : PubKey) : Event :=
  [.str "test", .str "terminating", .key pk]

/-- Which probe operation a connection attempt runs. -/
inductive ProbeCall where
  | ping
  | pingWithData
  deriving Repr, DecidableEq

/-- Behaviour of one target across the connections `generateServerReport`
opens to it: `pings n` is the transport outcome of its n-th plain ping
(0 = firstPing, 1-3 = manyPings), `data` the behaviour of the
`pingWithData` connection. -/
structure TargetBehavior where
  pings : Nat → PingBeh
  data : DataBeh

/-- The ServerReport object (lines 83-87): initialised with
`pingWithData: null` and `manyPings: []`. -/
structure ServerReport where
  firstPing : TimedOutcome
  pingWithData : Option PingWithDataEntry
  manyPings : List TimedOutcome
  deriving Repr, DecidableEq

/-- Result of one `generateServerReport` run: the returned report, the
`onprogress` events emitted in order, and the probe connections opened in
order. -/
structure ServerRunResult where
  report : ServerReport
  events : List Event
  calls : List ProbeCall
  deriving Repr, DecidableEq

/-- `generateServerReport(publicKey, onprogress)` (lines 81-123).
`durs n` is the duration measured by the n-th `timeAndCatch` call
(0 = firstPing, 1 = pingWithData, 2-4 = the three manyPings).
The `keyBuf` hex-decoding of a string key (line 82) only feeds the
transport `connect` call, whose behaviour is the `beh` input; the events
carry the original `publicKey` argument. The JS `for` loop over
`i = 1..3` is unrolled. -/
def generateServerReport (cs : List Nat) (rand : Nat → Nat) (H : Buf → Buf)
    (pk : PubKey) (beh : TargetBehavior) (durs : Nat → Nat) : ServerRunResult :=
  let firstPing := timeAndCatch (durs 0) (ping (beh.pings 0))
  if firstPing.err.isSome then
    -- If we could not even ping the server, skip the remaining tests
    { report := { firstPing := firstPing, pingWithData := none, manyPings := [] }
      events := [evStart "first-ping" pk,
                 evEndO "first-ping" pk (.pingOutcome firstPing),
                 evTerminating pk]
      calls := [.ping] }
  else
    let dataResult := timeAndCatch (durs 1) (pingWithData cs rand H beh.data)
    let entry := pingWithDataEntryOf dataResult
    let p1 := timeAndCatch (durs 2) (ping (beh.pings 1))
    let p2 := timeAndCatch (durs 3) (ping (beh.pings 2))
    let p3 := timeAndCatch (durs 4) (ping (beh.pings 3))
    { report := { firstPing := firstPing, pingWithData := some entry
                  manyPings := [p1, p2, p3] }
      events := [evStart "first-ping" pk,
                 evEndO "first-ping" pk (.pingOutcome firstPing),
                 evStart "ping-with-data" pk,
                 evEndO "ping-with-data" pk (.entryOutcome entry),
                 evStart "many-pings" pk,
                 evStart "many-pings-1" pk,
                 evEndO "many-pings-1" pk (.pingOutcome p1),
                 evStart "many-pings-2" pk,
                 evEndO "many-pings-2" pk (.pingOutcome p2),
                 evStart "many-pings-3" pk,
                 evEndO "many-pings-3" pk (.pingOutcome p3),
                 evEnd "many-pings" pk]
      calls := [.ping, .pingWithData, .ping, .ping, .ping] }

/-- One manifest entry: `{ publicKey }`. -/
structure Entry where
  publicKey : PubKey
  deriving Repr, DecidableEq

/-- The JS value of a manifest's `servers` property, as seen by the
validation `!manifest.servers or !Array.isArray(manifest.servers)`:
absent or falsy, truthy but not an array, or an array of entries (an
empty array is truthy and passes). -/
inductive ServersField where
  | missing
  | notArray
  | arr (entries : List Entry)
  deriving Repr, DecidableEq

/-- A manifest: `{ servers }`. -/
structure Manifest where
  servers : ServersField
  deriving Repr, DecidableEq

/-- The NAT type code reported by the transport (`DHT.NAT_*` constants
are external; `other` stands for any unrecognised code). -/
inductive NatTypeCode where
  | randomized
  | incrementing
  | consistent
  | openNat
  | other
  deriving Repr, DecidableEq

/-- `natTypeToString` (lines 198-204). -/
def natTypeToString : NatTypeCode → String
  | .randomized => "randomized"
  | .incrementing => "incrementing"
  | .consistent => "consistent"
  | .openNat => "open"
  | .other => "unknown"

/-- The address object returned by `dht.remoteAddress()`. -/
structure RemoteAddr where
  host : String
  port : Nat
  type : NatTypeCode
  deriving Repr, DecidableEq

/-- The `remoteAddress` field of a FullReport: the spread of the
transport address with `type` replaced by its string rendering. -/
structure RemoteAddrOut where
  host : String
  port : Nat
  type : String
  deriving Repr, DecidableEq

/-- The FullReport object (lines 130-135). The `result` property is a JS
object, modelled as its ordered key-value entry list. -/
structure FullReport where
  remoteAddress : RemoteAddrOut
  manifest : Manifest
  result : List (String × ServerReport)
  duration : Nat
  deriving Repr, DecidableEq

/-- JS object property assignment `obj[k] = v`: update in place when the
key is present (keeping its original position), else append. -/
def jsObjSet (obj : List (String × ServerReport)) (k : String)
    (v : ServerReport) : List (String × ServerReport) :=
  if obj.any fun p => p.1 = k then
    obj.map fun p => if p.1 = k then (k, v) else p
  else obj ++ [(k, v)]

/-- The per-target loop of `generateFullReport` (lines 138-143), folding
`report.result[keyString] = await this.generateServerReport(...)` over
the manifest entries; `i` numbers the targets so each can have its own
behaviour and durations. Also accumulates the probe calls made. -/
def fleetLoop (cs : List Nat) (rand : Nat → Nat) (H : Buf → Buf)
    (behs : Nat → TargetBehavior) (durs : Nat → Nat → Nat) :
    List Entry → Nat → List (String × ServerReport) × List ProbeCall →
    List (String × ServerReport) × List ProbeCall
  | [], _, acc => acc
  | e :: rest, i, acc =>
      let run := generateServerReport cs rand H e.publicKey (behs i) (durs i)
      fleetLoop cs rand H behs durs rest (i + 1)
        (jsObjSet acc.1 (keyStr e.publicKey) run.report, acc.2 ++ run.calls)

/-- `generateFullReport(manifest, onprogress)` (lines 125-149): validate
the manifest shape, capture the remote address, probe every entry in
order, and return the report; `total` is the measured wall-clock
duration. Beside the JS return value the model returns the list of probe
connections opened, to make "no target was probed" statable. -/
def generateFullReportT (cs : List Nat) (rand : Nat → Nat) (H : Buf → Buf)
    (m : Manifest) (addr : RemoteAddr) (behs : Nat → TargetBehavior)
    (durs : Nat → Nat → Nat) (total : Nat) :
    Except JsErr FullReport × List ProbeCall :=
  match m.servers with
  | .arr entries =>
      let acc := fleetLoop cs rand H behs durs entries 0 ([], [])
      (.ok { remoteAddress :=
               { host := addr.host, port := addr.port
                 type := natTypeToString addr.type }
             manifest := m
             result := acc.1
             duration := total },
       acc.2)
  | _ =>
      (.error { message := "Malformed manifest"
                stack := errStack "Malformed manifest", info := none }, [])

/-- JS `array.indexOf(x, start)`: index of the first occurrence of `x`
at or after `start`, or -1. -/
def jsIndexOf (l : List Nat) (x : Nat) (start : Nat) : Int :=
  match (l.drop start).findIdx? fun y => y = x with
  | some i => ((start + i : Nat) : Int)
  | none => -1

/-- The start index JS `splice` actually uses for a given `start`
argument: negative values count from the end (clamped at 0), others are
clamped at the length. -/
def jsSpliceStart (len : Nat) (start : Int) : Nat :=
  if start < 0 then (start + len).toNat else min start.toNat len

/-- JS `array.splice(start)` with no delete count: removes every element
from the actual start index to the end, leaving the prefix. -/
def spliceFrom (l : List Nat) (start : Int) : List Nat :=
  l.take (jsSpliceStart l.length start)

/-- The `close` handler installed by `listen` (line 166):
`this._servers.splice(this._servers.indexOf(server, 1))` — note the
parenthesis placement: the `1` is `indexOf`'s start index and `splice`
receives a single argument. Servers are identified by handle ids. -/
def onServerClose (servers : List Nat) (s : Nat) : List Nat :=
  spliceFrom servers (jsIndexOf servers s 1)

/-- The registry mutation of `listen` (line 165):
`this._servers.push(server)`. -/
def onListen (servers : List Nat) (s : Nat) : List Nat :=
  servers ++ [s]

/-! ## Helper lemmas -/

theorem firstMismatch_eq (hs rs : List Buf) :
    firstMismatch hs rs =
      if ∃ p ∈ hs.zip rs, p.1 ≠ p.2 then
        some "Server responded with invalid data"
      else none := by
  induction hs generalizing rs with
  | nil => simp [firstMismatch]
  | cons h t ih =>
    cases rs with
    | nil => simp [firstMismatch]
    | cons r rt =>
      rw [List.zip_cons_cons]
      by_cases hh : h = r
      · subst hh
        have h1 : firstMismatch (h :: t) (h :: rt) = firstMismatch t rt := by
          simp [firstMismatch]
        have h2 : (∃ p ∈ (h, h) :: t.zip rt, p.1 ≠ p.2) ↔
            ∃ p ∈ t.zip rt, p.1 ≠ p.2 := by simp
        rw [h1, ih rt, if_congr h2 rfl rfl]
      · have h1 : firstMismatch (h :: t) (r :: rt) =
            some "Server responded with invalid data" := by
          simp [firstMismatch, hh]
        have h2 : ∃ p ∈ (h, r) :: t.zip rt, p.1 ≠ p.2 := ⟨(h, r), by simp [hh]⟩
        rw [h1, if_pos h2]

theorem mkRequests_length (cs : List Nat) (rand : Nat → Nat) :
    (mkRequests cs rand).length = cs.length := by
  simp [mkRequests]

theorem mkRequests_getElem? (cs : List Nat) (rand : Nat → Nat) (i : Nat) :
    (mkRequests cs rand)[i]? =
      (cs[i]?).map fun size => List.replicate size (rand i % 256) := by
  simp only [mkRequests, List.getElem?_map, List.getElem?_enum]
  cases cs[i]? <;> simp

theorem sendData_infoOf (cs : List Nat) (rand : Nat → Nat) (H : Buf → Buf)
    (responses : List Buf) :
    infoOf (sendData cs rand H responses) =
      some { requests := mkRequests cs rand, responses := responses,
             hashes := (mkRequests cs rand).map H } := by
  simp only [sendData]
  split <;> simp [infoOf]

/-! ## Claims -/

/-- C3: the Echo-Verification classification follows the priority order:
fewer responses than digests → not-enough-data; more → too-much-data;
else a pairwise positional mismatch → invalid-data; else success. -/
theorem claimC3_classification_priority (hashes responses : List Buf) :
    classify hashes responses =
      if responses.length < hashes.length then
        some "Server did not respond with enough data"
      else if hashes.length < responses.length then
        some "Server responded with too much data"
      else if ∃ p ∈ hashes.zip responses, p.1 ≠ p.2 then
        some "Server responded with invalid data"
      else none := by
  unfold classify
  by_cases h1 : responses.length < hashes.length
  · simp [h1]
  · by_cases h2 : hashes.length < responses.length
    · simp [h1, h2]
    · simp [h1, h2, firstMismatch_eq]

/-- C5: `_sendData` synthesizes one request per chunk size in order, each
of exactly that size filled with a single byte value, with digests
computed from the requests themselves, so requests, hashes and the chunk
plan have equal length and `hashes[i] = H requests[i]`; the produced
ExchangeResult carries these regardless of the peer's responses. -/
theorem claimC5_request_synthesis (cs : List Nat) (rand : Nat → Nat) (H : Buf → Buf) :
    (mkRequests cs rand).length = cs.length ∧
    ((mkRequests cs rand).map H).length = cs.length ∧
    (∀ i : Nat, (mkRequests cs rand)[i]? =
        (cs[i]?).map fun size => List.replicate size (rand i % 256)) ∧
    (∀ i : Nat, ((mkRequests cs rand).map H)[i]? =
        ((mkRequests cs rand)[i]?).map H) ∧
    (∀ responses, infoOf (sendData cs rand H responses) =
        some { requests := mkRequests cs rand, responses := responses,
               hashes := (mkRequests cs rand).map H }) :=
  ⟨mkRequests_length cs rand,
   by simp [mkRequests_length],
   mkRequests_getElem? cs rand,
   fun i => by simp [List.getElem?_map],
   sendData_infoOf cs rand H⟩

/-- C4: every classification error thrown by `pingWithData` carries the
full ExchangeResult (requests, responses and hashes actually produced) as
its `info` context; in particular with a five-chunk plan and exactly one
response the error is the insufficient-data one and its context has one
response and five hashes. -/
theorem claimC4_classification_error_context (cs : List Nat) (rand : Nat → Nat)
    (H : Buf → Buf) (responses : List Buf) (e : JsErr)
    (h : pingWithData cs rand H (Except.ok responses) = Except.error e) :
    e.info = some { requests := mkRequests cs rand, responses := responses,
                    hashes := (mkRequests cs rand).map H } ∧
    (cs.length = 5 → responses.length = 1 →
      e.message = "Server did not respond with enough data" ∧
      e.info.map (fun i => i.hashes.length) = some 5 ∧
      e.info.map (fun i => i.responses.length) = some 1) := by
  rcases hc : classify ((mkRequests cs rand).map H) responses with _ | msg
  · exfalso
    simp [pingWithData, sendData, hc] at h
  · have he : e = JsErr.mk msg (errStack msg)
        (some (ExchangeResult.mk (mkRequests cs rand) responses
          ((mkRequests cs rand).map H))) := by
      simp [pingWithData, sendData, hc] at h
      exact h.symm
    subst he
    refine ⟨rfl, fun h5 h1 => ?_⟩
    have hlen : ((mkRequests cs rand).map H).length = 5 := by
      simp [mkRequests_length, h5]
    have : classify ((mkRequests cs rand).map H) responses =
        some "Server did not respond with enough data" := by
      unfold classify
      rw [if_pos (by omega)]
    rw [hc] at this
    simp_all

/-- The concrete classification error of the C4 witness run. -/
def c4err : JsErr :=
  { message := "Server did not respond with enough data"
    stack := errStack "Server did not respond with enough data"
    info := some { requests := [[3], [3], [3], [3], [3]], responses := [[9]]
                   hashes := [[3], [3], [3], [3], [3]] } }

/-- C4 witness: a five-chunk plan answered by a single response buffer. -/
theorem claimC4_witness :
    pingWithData [1, 1, 1, 1, 1] (fun _ => 3) (fun b => b) (Except.ok [[9]]) =
      Except.error c4err ∧
    (c4err.info =
      some { requests := mkRequests [1, 1, 1, 1, 1] (fun _ => 3), responses := [[9]]
             hashes := (mkRequests [1, 1, 1, 1, 1] (fun _ => 3)).map fun b => b } ∧
     (([1, 1, 1, 1, 1] : List Nat).length = 5 → ([[9]] : List Buf).length = 1 →
        c4err.message = "Server did not respond with enough data" ∧
        c4err.info.map (fun i => i.hashes.length) = some 5 ∧
        c4err.info.map (fun i => i.responses.length) = some 1)) :=
  ⟨by rfl, claimC4_classification_error_context [1, 1, 1, 1, 1] (fun _ => 3)
      (fun b => b) [[9]] c4err (by rfl)⟩

theorem pingWithDataEntryOf_info_none (d : TimedOutcome) :
    (pingWithDataEntryOf d).info = none := by
  unfold pingWithDataEntryOf
  cases d.err <;> simp [CaughtErr.infoProp]

/-- C1 (code bug): on a run whose data exchange failed with attached
ExchangeResult context, `timeAndCatch` does capture the context on the
outcome's own `info` property, yet the ServerReport's `pingWithData.info`
is `none` — the reducer reads `dataResult.err.info`, a property the
stored `{message, stack}` object does not have, so the hex-encoding
branch never runs and `info` is never the hex-encoded lists the spec
describes. -/
theorem claimC1_reduced_info_bug :
    (timeAndCatch 11 (pingWithData [1] (fun _ => 3) (fun b => b)
        (Except.ok [[9]]))).info =
      some { requests := [[3]], responses := [[9]], hashes := [[3]] } ∧
    (generateServerReport [1] (fun _ => 3) (fun b => b) (.buf [7])
        ⟨fun _ => none, Except.ok [[9]]⟩ (fun n => n + 10)).report.pingWithData =
      some { err := some { message := "Server responded with invalid data"
                           stack := errStack "Server responded with invalid data" }
             info := none
             duration := 11 } :=
  ⟨rfl, rfl⟩

/-- C2: when firstPing captured an error, the report has `pingWithData`
null and `manyPings` empty, the only connection opened is the first ping,
and the event trace stops at the terminating event. -/
theorem claimC2_firstPing_short_circuit (cs : List Nat) (rand : Nat → Nat)
    (H : Buf → Buf) (pk : PubKey) (beh : TargetBehavior) (durs : Nat → Nat)
    (h : ((generateServerReport cs rand H pk beh durs).report.firstPing).err.isSome = true) :
    (generateServerReport cs rand H pk beh durs).report.pingWithData = none ∧
    (generateServerReport cs rand H pk beh durs).report.manyPings = [] ∧
    (generateServerReport cs rand H pk beh durs).calls = [ProbeCall.ping] ∧
    (generateServerReport cs rand H pk beh durs).events =
      [evStart "first-ping" pk,
       evEndO "first-ping" pk (.pingOutcome (timeAndCatch (durs 0) (ping (beh.pings 0)))),
       evTerminating pk] := by
  by_cases hc : (timeAndCatch (durs 0) (ping (beh.pings 0))).err.isSome
  · simp [generateServerReport, hc]
  · exfalso
    simp [generateServerReport, hc] at h

/-- The behaviour of a target that refuses every connection. -/
def refuseBeh : TargetBehavior :=
  ⟨fun _ => some { message := "refused", stack := "st", info := none },
   Except.ok []⟩

/-- C2 witness: a target refusing its first connection. -/
theorem claimC2_witness :
    ((generateServerReport [1] (fun _ => 3) (fun b => b) (.buf [7]) refuseBeh
        (fun n => n + 10)).report.firstPing).err.isSome = true ∧
    ((generateServerReport [1] (fun _ => 3) (fun b => b) (.buf [7]) refuseBeh
        (fun n => n + 10)).report.pingWithData = none ∧
     (generateServerReport [1] (fun _ => 3) (fun b => b) (.buf [7]) refuseBeh
        (fun n => n + 10)).report.manyPings = [] ∧
     (generateServerReport [1] (fun _ => 3) (fun b => b) (.buf [7]) refuseBeh
        (fun n => n + 10)).calls = [ProbeCall.ping] ∧
     (generateServerReport [1] (fun _ => 3) (fun b => b) (.buf [7]) refuseBeh
        (fun n => n + 10)).events =
       [evStart "first-ping" (.buf [7]),
        evEndO "first-ping" (.buf [7])
          (.pingOutcome (timeAndCatch ((fun n => n + 10) 0) (ping (refuseBeh.pings 0)))),
        evTerminating (.buf [7])]) :=
  ⟨by decide, claimC2_firstPing_short_circuit [1] (fun _ => 3) (fun b => b)
      (.buf [7]) refuseBeh (fun n => n + 10) (by decide)⟩

/-- C9 (code bug): the close handler
`this._servers.splice(this._servers.indexOf(server, 1))` removes every
registered server from the closed one's position to the end (and, when
the closed server sits at index 0, removes the last server instead),
rather than exactly the closed server; `listen` does append the new
server. -/
theorem claimC9_close_splice_bug :
    onListen [10, 11] 12 = [10, 11, 12] ∧
    onServerClose [10, 11, 12] 11 = [10] ∧
    onServerClose [10, 11] 10 = [10] := by
  refine ⟨rfl, ?_, ?_⟩ <;> rfl

/-- C10: `ping` resolves with no value, so its successful TimedOutcome
has no `result` value and no `err`, with the duration still populated;
a successful `pingWithData` report entry has `err` undefined and `info`
null. -/
theorem claimC10_success_shape (b : PingBeh) (v : Option ExchangeResult)
    (d d2 : Nat) (cs : List Nat) (rand : Nat → Nat) (H : Buf → Buf)
    (db : DataBeh) (w : Option ExchangeResult)
    (hp : ping b = Except.ok v)
    (hd : pingWithData cs rand H db = Except.ok w) :
    v = none ∧
    (timeAndCatch d (ping b)).result = none ∧
    (timeAndCatch d (ping b)).err = none ∧
    (timeAndCatch d (ping b)).duration = d ∧
    (pingWithDataEntryOf (timeAndCatch d2 (pingWithData cs rand H db))).err = none ∧
    (pingWithDataEntryOf (timeAndCatch d2 (pingWithData cs rand H db))).info = none ∧
    (pingWithDataEntryOf (timeAndCatch d2 (pingWithData cs rand H db))).duration = d2 := by
  cases b with
  | some e => simp [ping] at hp
  | none =>
    have hv : v = none := by
      have := hp
      simp [ping] at this
      exact this.symm
    subst hv
    refine ⟨rfl, ?_, ?_, ?_, ?_, ?_, ?_⟩ <;>
      simp [timeAndCatch, ping, hd, pingWithDataEntryOf]

/-- C10 witness: a target that opens the plain ping connection and echoes
the data exchange correctly. -/
theorem claimC10_witness :
    ping none = Except.ok none ∧
    pingWithData [1] (fun _ => 3) (fun b => b) (Except.ok [[3]]) =
      Except.ok (some { requests := [[3]], responses := [[3]], hashes := [[3]] }) ∧
    (none = (none : Option ExchangeResult) ∧
     (timeAndCatch 7 (ping none)).result = none ∧
     (timeAndCatch 7 (ping none)).err = none ∧
     (timeAndCatch 7 (ping none)).duration = 7 ∧
     (pingWithDataEntryOf (timeAndCatch 8 (pingWithData [1] (fun _ => 3)
        (fun b => b) (Except.ok [[3]])))).err = none ∧
     (pingWithDataEntryOf (timeAndCatch 8 (pingWithData [1] (fun _ => 3)
        (fun b => b) (Except.ok [[3]])))).info = none ∧
     (pingWithDataEntryOf (timeAndCatch 8 (pingWithData [1] (fun _ => 3)
        (fun b => b) (Except.ok [[3]])))).duration = 8) :=
  ⟨rfl, rfl, claimC10_success_shape none none 7 8 [1] (fun _ => 3) (fun b => b)
      (Except.ok [[3]]) (some { requests := [[3]], responses := [[3]], hashes := [[3]] })
      (by rfl) (by rfl)⟩

/-- Shape the spec assigns to progress events, adjusted for the
terminating event: phase `test` first, a status second, then either a
test name in the third position and the identity in the fourth with an
optional outcome fifth, or — for the terminating event only — the
identity in the third position and nothing after it. -/
def wellShaped (pk : PubKey) (ev : Event) : Prop :=
  (∃ s n rest, (s = "start" ∨ s = "end") ∧
      ev = EvArg.str "test" :: EvArg.str s :: EvArg.str n :: EvArg.key pk :: rest ∧
      (rest = [] ∨ ∃ o, rest = [o] ∧ o.isOutcome = true)) ∨
  ev = evTerminating pk

theorem wellShaped_evStart (pk : PubKey) (n : String) :
    wellShaped pk (evStart n pk) :=
  Or.inl ⟨"start", n, [], Or.inl rfl, rfl, Or.inl rfl⟩

theorem wellShaped_evEnd (pk : PubKey) (n : String) :
    wellShaped pk (evEnd n pk) :=
  Or.inl ⟨"end", n, [], Or.inr rfl, rfl, Or.inl rfl⟩

theorem wellShaped_evEndO (pk : PubKey) (n : String) (o : EvArg)
    (ho : o.isOutcome = true) : wellShaped pk (evEndO n pk o) :=
  Or.inl ⟨"end", n, [o], Or.inr rfl, rfl, Or.inr ⟨o, rfl, ho⟩⟩

theorem wellShaped_evTerminating (pk : PubKey) :
    wellShaped pk (evTerminating pk) := Or.inr rfl

/-- C7 (amended): every progress event emitted by `generateServerReport`
has phase `test` first and a status second, with the test name third, the
identity fourth and an optional outcome fifth — except the terminating
event, which has only three arguments with the identity in the third
position. -/
theorem claimC7_amended_event_shape (cs : List Nat) (rand : Nat → Nat)
    (H : Buf → Buf) (pk : PubKey) (beh : TargetBehavior) (durs : Nat → Nat)
    (ev : Event)
    (hev : ev ∈ (generateServerReport cs rand H pk beh durs).events) :
    wellShaped pk ev := by
  simp only [generateServerReport] at hev
  split at hev <;>
    simp only [List.mem_cons, List.not_mem_nil, or_false] at hev <;>
    rcases hev with rfl | rfl | rfl | rfl | rfl | rfl | rfl | rfl | rfl | rfl | rfl | rfl <;>
    first
      | exact wellShaped_evStart _ _
      | exact wellShaped_evEnd _ _
      | exact wellShaped_evTerminating _
      | exact wellShaped_evEndO _ _ _ rfl

/-- C7 witness: the terminating event of a refused target is among the
emitted events and satisfies the amended shape. -/
theorem claimC7_witness :
    evTerminating (.buf [7]) ∈
      (generateServerReport [1] (fun _ => 3) (fun b => b) (.buf [7]) refuseBeh
        (fun n => n + 10)).events ∧
    wellShaped (.buf [7]) (evTerminating (.buf [7])) :=
  ⟨by decide, claimC7_amended_event_shape [1] (fun _ => 3) (fun b => b)
      (.buf [7]) refuseBeh (fun n => n + 10) (evTerminating (.buf [7]))
      (by decide)⟩

/-- C7 counterexample: the terminating event emitted when firstPing fails
carries the identity in its third position and has no fourth argument, so
it does not have the testName-third / identity-fourth shape the claim
asserts for every event. -/
theorem claimC7_counterexample :
    evTerminating (.buf [7]) ∈
      (generateServerReport [1] (fun _ => 3) (fun b => b) (.buf [7]) refuseBeh
        (fun n => n + 10)).events ∧
    (evTerminating (.buf [7]))[2]? = some (EvArg.key (.buf [7])) ∧
    (evTerminating (.buf [7]))[3]? = none := by
  refine ⟨by decide, rfl, rfl⟩

/-- The malformed-manifest error thrown by `generateFullReport`. -/
def malformedErr : JsErr :=
  { message := "Malformed manifest", stack := errStack "Malformed manifest"
    info := none }

/-- C6: `generateFullReport` throws the malformed-manifest error, before
opening any probe connection, exactly when the manifest's `servers` field
is not an array; on every syntactically valid manifest it returns a
completed FullReport for any target behaviour whatsoever — per-target
failures stay inside the report. -/
theorem claimC6_manifest_validation (cs : List Nat) (rand : Nat → Nat)
    (H : Buf → Buf) (m : Manifest) (addr : RemoteAddr)
    (behs : Nat → TargetBehavior) (durs : Nat → Nat → Nat) (total : Nat) :
    ((m.servers = .missing ∨ m.servers = .notArray) →
      generateFullReportT cs rand H m addr behs durs total =
        (Except.error malformedErr, [])) ∧
    (∀ l, m.servers = .arr l →
      ∃ r : FullReport,
        (generateFullReportT cs rand H m addr behs durs total).1 = Except.ok r ∧
        r.manifest = m ∧ r.duration = total ∧
        r.remoteAddress = { host := addr.host, port := addr.port
                            type := natTypeToString addr.type }) := by
  constructor
  · rintro (hs | hs) <;> simp [generateFullReportT, hs, malformedErr]
  · intro l hl
    refine ⟨{ remoteAddress := { host := addr.host, port := addr.port
                                 type := natTypeToString addr.type }
              manifest := m
              result := (fleetLoop cs rand H behs durs l 0 ([], [])).1
              duration := total }, ?_, rfl, rfl, rfl⟩
    simp [generateFullReportT, hl]

/-- Concrete fleet inputs shared by the C6 and C8 witness runs: every
target refuses its first connection. -/
def refuseFleet : Nat → TargetBehavior := fun _ => refuseBeh

/-- C6 witness: a manifest with `servers` absent is rejected with no
probe opened, and a one-entry manifest probing an unreachable target
still yields a completed report. -/
theorem claimC6_witness :
    ((Manifest.mk .missing).servers = .missing ∨
      (Manifest.mk .missing).servers = .notArray) ∧
    generateFullReportT [1] (fun _ => 3) (fun b => b) (Manifest.mk .missing)
        ⟨"h", 1, .openNat⟩ refuseFleet (fun _ n => n) 5 =
      (Except.error malformedErr, []) ∧
    (Manifest.mk (.arr [⟨.buf [170]⟩])).servers = .arr [⟨.buf [170]⟩] ∧
    ∃ r : FullReport,
      (generateFullReportT [1] (fun _ => 3) (fun b => b)
          (Manifest.mk (.arr [⟨.buf [170]⟩])) ⟨"h", 1, .openNat⟩ refuseFleet
          (fun _ n => n) 5).1 = Except.ok r ∧
      r.manifest = Manifest.mk (.arr [⟨.buf [170]⟩]) ∧ r.duration = 5 ∧
      r.remoteAddress = { host := "h", port := 1
                          type := natTypeToString NatTypeCode.openNat } :=
  ⟨Or.inl rfl,
   (claimC6_manifest_validation [1] (fun _ => 3) (fun b => b)
      (Manifest.mk .missing) ⟨"h", 1, .openNat⟩ refuseFleet (fun _ n => n) 5).1
      (Or.inl rfl),
   rfl,
   (claimC6_manifest_validation [1] (fun _ => 3) (fun b => b)
      (Manifest.mk (.arr [⟨.buf [170]⟩])) ⟨"h", 1, .openNat⟩ refuseFleet
      (fun _ n => n) 5).2 [⟨.buf [170]⟩] rfl⟩

theorem jsObjSet_not_mem (obj : List (String × ServerReport)) (k : String)
    (v : ServerReport) (h : k ∉ obj.map Prod.fst) :
    jsObjSet obj k v = obj ++ [(k, v)] := by
  unfold jsObjSet
  rw [if_neg]
  simp only [List.any_eq_true, decide_eq_true_eq, not_exists, not_and]
  intro p hp hpk
  exact h (hpk ▸ List.mem_map_of_mem Prod.fst hp)

theorem fleetLoop_keys (cs : List Nat) (rand : Nat → Nat) (H : Buf → Buf)
    (behs : Nat → TargetBehavior) (durs : Nat → Nat → Nat) :
    ∀ (l : List Entry) (i : Nat)
      (acc : List (String × ServerReport) × List ProbeCall),
      ((acc.1.map Prod.fst) ++ l.map fun e => keyStr e.publicKey).Nodup →
      (fleetLoop cs rand H behs durs l i acc).1.map Prod.fst =
        acc.1.map Prod.fst ++ l.map fun e => keyStr e.publicKey := by
  intro l
  induction l with
  | nil =>
    intro i acc _
    simp [fleetLoop]
  | cons e rest ih =>
    intro i acc h
    rw [List.map_cons] at h
    have hk : keyStr e.publicKey ∉ acc.1.map Prod.fst := by
      intro hmem
      rcases List.nodup_append.mp h with ⟨-, -, hdisj⟩
      exact hdisj hmem (List.mem_cons_self _ _)
    have hset := jsObjSet_not_mem acc.1 (keyStr e.publicKey)
      (generateServerReport cs rand H e.publicKey (behs i) (durs i)).report hk
    rw [fleetLoop, hset]
    have hnew : (((acc.1 ++ [(keyStr e.publicKey,
          (generateServerReport cs rand H e.publicKey (behs i) (durs i)).report)]).map
            Prod.fst) ++ rest.map fun e => keyStr e.publicKey).Nodup := by
      simpa [List.append_assoc] using h
    rw [ih (i + 1) _ hnew]
    simp

/-- C8 (amended): for every valid manifest whose entries have pairwise
distinct derived keys, the FullReport's result mapping has exactly one
key per manifest entry — the hex encoding of a Buffer publicKey (a string
publicKey, already hex, is used as given) — in manifest order. -/
theorem claimC8_amended_result_keys (cs : List Nat) (rand : Nat → Nat)
    (H : Buf → Buf) (m : Manifest) (addr : RemoteAddr)
    (behs : Nat → TargetBehavior) (durs : Nat → Nat → Nat) (total : Nat)
    (entries : List Entry)
    (hm : m.servers = .arr entries)
    (hnd : (entries.map fun e => keyStr e.publicKey).Nodup) :
    ∃ r : FullReport,
      (generateFullReportT cs rand H m addr behs durs total).1 = Except.ok r ∧
      r.result.map Prod.fst = entries.map fun e => keyStr e.publicKey := by
  have hkeys := fleetLoop_keys cs rand H behs durs entries 0 ([], [])
    (by simpa using hnd)
  refine ⟨{ remoteAddress := { host := addr.host, port := addr.port
                               type := natTypeToString addr.type }
            manifest := m
            result := (fleetLoop cs rand H behs durs entries 0 ([], [])).1
            duration := total }, ?_, ?_⟩
  · simp [generateFullReportT, hm]
  · simpa using hkeys

/-- The extracted key list of a `generateFullReport` result object. -/
def resultKeys : Except JsErr FullReport → List String
  | .ok r => r.result.map Prod.fst
  | .error _ => []

/-- C8 counterexample: a valid manifest naming the same target twice
produces a result object with a single key, not one key per entry. -/
theorem claimC8_counterexample :
    resultKeys (generateFullReportT [1] (fun _ => 3) (fun b => b)
        (Manifest.mk (.arr [⟨.buf [170]⟩, ⟨.buf [170]⟩]))
        ⟨"h", 1, .openNat⟩ refuseFleet (fun _ n => n) 5).1 = ["aa"] ∧
    ([⟨.buf [170]⟩, ⟨.buf [170]⟩] : List Entry).map
        (fun e => keyStr e.publicKey) = ["aa", "aa"] := by
  refine ⟨rfl, rfl⟩

/-- C8 witness: two distinct targets give two keys in manifest order. -/
theorem claimC8_witness :
    (Manifest.mk (.arr [⟨.buf [170]⟩, ⟨.buf [5]⟩])).servers =
      .arr [⟨.buf [170]⟩, ⟨.buf [5]⟩] ∧
    (([⟨.buf [170]⟩, ⟨.buf [5]⟩] : List Entry).map
        fun e => keyStr e.publicKey).Nodup ∧
    ∃ r : FullReport,
      (generateFullReportT [1] (fun _ => 3) (fun b => b)
          (Manifest.mk (.arr [⟨.buf [170]⟩, ⟨.buf [5]⟩]))
          ⟨"h", 1, .openNat⟩ refuseFleet (fun _ n => n) 5).1 = Except.ok r ∧
      r.result.map Prod.fst = ([⟨.buf [170]⟩, ⟨.buf [5]⟩] : List Entry).map
        fun e => keyStr e.publicKey :=
  ⟨rfl, by decide,
   claimC8_amended_result_keys [1] (fun _ => 3) (fun b => b)
     (Manifest.mk (.arr [⟨.buf [170]⟩, ⟨.buf [5]⟩])) ⟨"h", 1, .openNat⟩
     refuseFleet (fun _ n => n) 5 [⟨.buf [170]⟩, ⟨.buf [5]⟩] rfl (by decide)⟩

end HyperdhtDoctor
